import Mathlib

/-!
# Native bridge `com_threerings_util_unsafe_Unsafe.c` (FreeBSD)

A shallow embedding of the JNI bridge that forwards sleep, identity switching and
JVMPI garbage-collector toggling to the operating system and to the Java runtime.

The C functions are straight-line code around calls to external primitives
(`select`, `setuid`, `setgid`, `seteuid`, `setegid`, `GetJavaVM`, `GetEnv`,
`EnableGC`, `DisableGC`, `fprintf`, `strerror`).  The embedding makes the state
explicit:

* `World` holds the file-level global `jvmpi`, the list of external primitives
  invoked so far (with their arguments) and the texts written to `stderr`;
* what an external primitive answers (its return value, the text `strerror(errno)`
  yields afterwards, what `GetEnv` stores through its out-pointer) is an explicit
  argument of the embedded function, so every statement quantifies over it.

C `int` arithmetic is on `Int` with an explicit wrap to 32 bits.
-/

namespace UnsafeBridge

/-! ## Machine integers -/

/-- Wrap a mathematical integer into the range of a 32-bit two-complement C `int`. -/
def wrap32 (x : Int) : Int := (x + 2147483648) % 4294967296 - 2147483648

/-- The values of a `jint` (a signed 32-bit integer). -/
def isJint (x : Int) : Prop := -2147483648 ≤ x ∧ x ≤ 2147483647

instance (x : Int) : Decidable (isJint x) := by
  unfold isJint
  exact inferInstance

/-- C integer division of two `int`s (truncation toward zero), divisor not zero. -/
def c_div (a b : Int) : Int := wrap32 (Int.tdiv a b)

/-- C remainder of two `int`s (sign of the dividend), divisor not zero. -/
def c_mod (a b : Int) : Int := wrap32 (Int.tmod a b)

/-- C multiplication of two `int`s, wrapped to 32 bits. -/
def c_mul (a b : Int) : Int := wrap32 (a * b)

/-- Modelled from the spec: the width in bits of `uid_t` and `gid_t`, whose declaration
(`sys/types.h`) is not among the sources.  The specification treats an identity as a
32-bit value; FreeBSD, the platform of this file, declares both types as
`__uint32_t`. -/
def id_bits : Nat := 32

/-- The C cast `(uid_t)v` / `(gid_t)v` of a `jint`: reduction modulo `2 ^ id_bits`. -/
def to_id_t (v : Int) : Nat := (v % (2 : Int) ^ id_bits).toNat

/-- The conversion `%d` of `fprintf` applied to a `jint`: signed decimal. -/
def fmt_d (v : Int) : String := toString v

/-! ## Data model -/

/-- The C `struct timeval` handed to `select`. -/
structure timeval where
  tv_sec : Int
  tv_usec : Int
deriving DecidableEq, Repr

/-- Interface versions that can be requested from `GetEnv`.  The bridge only ever asks
for `JVMPI_VERSION_1` (declared in `jvmpi.h`). -/
inductive InterfaceVersion where
  | JVMPI_VERSION_1
deriving DecidableEq, Repr

/-- One invocation of an external primitive, with the arguments it received.
A descriptor-set argument is `none` for a `NULL` pointer and `some fds` for a pointer
to a set holding the descriptors `fds`; an identity argument is the unsigned value
after the cast; `EnableGC` / `DisableGC` record the function table they were reached
through. -/
inductive Call where
  | select (nfds : Int) (readfds writefds exceptfds : Option (List Nat))
      (timeout : Option timeval)
  | setuid (uid : Nat)
  | setgid (gid : Nat)
  | seteuid (uid : Nat)
  | setegid (gid : Nat)
  | GetJavaVM
  | GetEnv (version : InterfaceVersion)
  | EnableGC (table : Nat)
  | DisableGC (table : Nat)
deriving DecidableEq, Repr

/-- The state the bridge runs in. -/
structure World where
  /-- The global `static JVMPI_Interface* jvmpi`; `0` is the `NULL` pointer. -/
  jvmpi : Nat
  /-- External primitives invoked so far, oldest first. -/
  calls : List Call
  /-- Texts written with `fprintf(stderr, ...)`, one entry per `fprintf`, oldest first. -/
  stderr : List String
deriving DecidableEq, Repr

/-- The state at load time: a `static` pointer starts out `NULL`, nothing has been
called or written. -/
def World.initial : World := { jvmpi := 0, calls := [], stderr := [] }

/-- Record the invocation of an external primitive. -/
def World.invoke (w : World) (c : Call) : World := { w with calls := w.calls ++ [c] }

/-- Record one `fprintf(stderr, ...)` producing the text `s`. -/
def World.fprintf (w : World) (s : String) : World := { w with stderr := w.stderr ++ [s] }

/-- What an operating-system primitive answers: its return value and the text that
`strerror(errno)` yields right after the call. -/
structure SysAnswer where
  ret : Int
  strerror : String
deriving DecidableEq, Repr

/-- What the Java runtime answers during `init`: the result codes of `GetJavaVM` and
`GetEnv` and the pointer `GetEnv` stores through its out-parameter (`none` when it
stores nothing, `some 0` when it stores `NULL`).  The `GetEnv` fields are only
consulted when the code reaches that call. -/
structure JniAnswer where
  GetJavaVM : Int
  GetEnv : Int
  penv : Option Nat
deriving DecidableEq, Repr

/-! ## The bridge functions -/

/-- `static int select_sleep (int millisecs)`: build the timeout and call
`select(0, &dummy, NULL, NULL, &toWait)` on an emptied descriptor set; the result of
`select` is returned. -/
def select_sleep (w : World) (millisecs : Int) (os : SysAnswer) : Int × World :=
  let toWait : timeval :=
    { tv_sec := c_div millisecs 1000
      tv_usec := c_mul (c_mod millisecs 1000) 1000 }
  (os.ret, w.invoke (Call.select 0 (some []) none none (some toWait)))

/-- `Java_com_threerings_util_unsafe_Unsafe_nativeSleep`: a `void` function, so the
only result is the new state. -/
def Java_com_threerings_util_unsafe_Unsafe_nativeSleep (w : World) (millis : Int)
    (os : SysAnswer) : Unit × World :=
  let r := select_sleep w millis os
  if r.1 < 0 then
    ((), r.2.fprintf ("select_sleep() failed: " ++ os.strerror ++ "\n"))
  else
    ((), r.2)

/-- `Java_com_threerings_util_unsafe_Unsafe_nativeSetuid`. -/
def Java_com_threerings_util_unsafe_Unsafe_nativeSetuid (w : World) (uid : Int)
    (os : SysAnswer) : Bool × World :=
  let w1 := w.invoke (Call.setuid (to_id_t uid))
  if os.ret ≠ 0 then
    (false, w1.fprintf ("setuid(" ++ fmt_d uid ++ ") failed: " ++ os.strerror ++ "\n"))
  else
    (true, w1)

/-- `Java_com_threerings_util_unsafe_Unsafe_nativeSetgid`. -/
def Java_com_threerings_util_unsafe_Unsafe_nativeSetgid (w : World) (gid : Int)
    (os : SysAnswer) : Bool × World :=
  let w1 := w.invoke (Call.setgid (to_id_t gid))
  if os.ret ≠ 0 then
    (false, w1.fprintf ("setgid(" ++ fmt_d gid ++ ") failed: " ++ os.strerror ++ "\n"))
  else
    (true, w1)

/-- `Java_com_threerings_util_unsafe_Unsafe_nativeSeteuid`. -/
def Java_com_threerings_util_unsafe_Unsafe_nativeSeteuid (w : World) (uid : Int)
    (os : SysAnswer) : Bool × World :=
  let w1 := w.invoke (Call.seteuid (to_id_t uid))
  if os.ret ≠ 0 then
    (false, w1.fprintf ("seteuid(" ++ fmt_d uid ++ ") failed: " ++ os.strerror ++ "\n"))
  else
    (true, w1)

/-- `Java_com_threerings_util_unsafe_Unsafe_nativeSetegid`. -/
def Java_com_threerings_util_unsafe_Unsafe_nativeSetegid (w : World) (gid : Int)
    (os : SysAnswer) : Bool × World :=
  let w1 := w.invoke (Call.setegid (to_id_t gid))
  if os.ret ≠ 0 then
    (false, w1.fprintf ("setegid(" ++ fmt_d gid ++ ") failed: " ++ os.strerror ++ "\n"))
  else
    (true, w1)

/-- `Java_com_threerings_util_unsafe_Unsafe_init`.  `GetJavaVM` is called first and its
result compared with `> 0`; past that test `GetEnv` is called with the address of the
global `jvmpi` as out-parameter, so whatever it stores lands in the global, and its
result is compared with `< 0`.  The `GetEnv` call goes through the local `jvm` that
`GetJavaVM` fills in; the local is not initialised, so after a `GetJavaVM` that failed
without storing anything the call is undefined in C.  The function below follows the
control flow and takes the `GetEnv` answer as given also in that case; statements about
the intended behaviour therefore assume a `GetJavaVM` result that is not negative. -/
def Java_com_threerings_util_unsafe_Unsafe_init (w : World) (jni : JniAnswer) :
    Bool × World :=
  let w1 := w.invoke Call.GetJavaVM
  if jni.GetJavaVM > 0 then
    (false, w1.fprintf "Failed to get JavaVM from env.\n")
  else
    let w2 := w1.invoke (Call.GetEnv InterfaceVersion.JVMPI_VERSION_1)
    let w3 : World := { w2 with jvmpi := jni.penv.getD w2.jvmpi }
    if jni.GetEnv < 0 then
      (false, w3.fprintf "Failed to get JVMPI from JavaVM.\n")
    else
      (true, w3)

/-! ## The four identity operations, taken together -/

/-- The four identity operations the bridge exports. -/
inductive IdOp where
  | nativeSetuid
  | nativeSetgid
  | nativeSeteuid
  | nativeSetegid
deriving DecidableEq, Repr

/-- The bridge function that implements an identity operation. -/
def IdOp.run : IdOp → World → Int → SysAnswer → Bool × World
  | IdOp.nativeSetuid => Java_com_threerings_util_unsafe_Unsafe_nativeSetuid
  | IdOp.nativeSetgid => Java_com_threerings_util_unsafe_Unsafe_nativeSetgid
  | IdOp.nativeSeteuid => Java_com_threerings_util_unsafe_Unsafe_nativeSeteuid
  | IdOp.nativeSetegid => Java_com_threerings_util_unsafe_Unsafe_nativeSetegid

/-- The OS primitive that belongs to an identity operation according to the
specification: `setuid`, `setgid`, `seteuid`, `setegid` respectively. -/
def IdOp.primitive : IdOp → Nat → Call
  | IdOp.nativeSetuid => Call.setuid
  | IdOp.nativeSetgid => Call.setgid
  | IdOp.nativeSeteuid => Call.seteuid
  | IdOp.nativeSetegid => Call.setegid

/-- The C name of the primitive an invocation went to. -/
def Call.name : Call → String
  | Call.select _ _ _ _ _ => "select"
  | Call.setuid _ => "setuid"
  | Call.setgid _ => "setgid"
  | Call.seteuid _ => "seteuid"
  | Call.setegid _ => "setegid"
  | Call.GetJavaVM => "GetJavaVM"
  | Call.GetEnv _ => "GetEnv"
  | Call.EnableGC _ => "EnableGC"
  | Call.DisableGC _ => "DisableGC"

/-- The diagnostic line the specification describes for a failed identity change:
`<primitive>(<v>) failed: <description>` followed by a newline. -/
def diagnostic (primitive : String) (v : Int) (description : String) : String :=
  primitive ++ "(" ++ fmt_d v ++ ") failed: " ++ description ++ "\n"

theorem wrap32_of_isJint (x : Int) (h : isJint x) : wrap32 x = x := by
  unfold isJint at h
  unfold wrap32
  omega

theorem tdiv_1000_of_nonneg (d : Int) (h : 0 ≤ d) : Int.tdiv d 1000 = d / 1000 :=
  Int.tdiv_eq_ediv h (by decide)

theorem tmod_1000_of_nonneg (d : Int) (h : 0 ≤ d) : Int.tmod d 1000 = d % 1000 :=
  Int.tmod_eq_emod h (by decide)

theorem tdiv_1000_of_neg (m : Int) (h : m < 0) : Int.tdiv m 1000 = -((-m) / 1000) := by
  have h1 : Int.tdiv (- -m) 1000 = -Int.tdiv (-m) 1000 := Int.neg_tdiv (-m) 1000
  rw [neg_neg] at h1
  rw [h1, tdiv_1000_of_nonneg (-m) (by omega)]

theorem tmod_1000_of_neg (m : Int) (h : m < 0) : Int.tmod m 1000 = -((-m) % 1000) := by
  have h1 := Int.tmod_add_tdiv m 1000
  rw [tdiv_1000_of_neg m h] at h1
  omega

/-- The timeout `select_sleep` builds, for any `int` argument: truncating division and
remainder, no wrap-around taking place. -/
theorem select_sleep_timeout (w : World) (m : Int) (os : SysAnswer) (h : isJint m) :
    (select_sleep w m os).2.calls =
      w.calls ++ [Call.select 0 (some []) none none
        (some { tv_sec := Int.tdiv m 1000, tv_usec := Int.tmod m 1000 * 1000 })] := by
  have hm := h
  unfold isJint at hm
  have hdiv : isJint (Int.tdiv m 1000) := by
    unfold isJint
    rcases lt_or_le m 0 with hneg | hpos
    · rw [tdiv_1000_of_neg m hneg]; omega
    · rw [tdiv_1000_of_nonneg m hpos]; omega
  have hmod : -999 ≤ Int.tmod m 1000 ∧ Int.tmod m 1000 ≤ 999 := by
    rcases lt_or_le m 0 with hneg | hpos
    · rw [tmod_1000_of_neg m hneg]; omega
    · rw [tmod_1000_of_nonneg m hpos]; omega
  have hmod1 : isJint (Int.tmod m 1000) := by unfold isJint; omega
  have hmul : isJint (Int.tmod m 1000 * 1000) := by unfold isJint; omega
  simp only [select_sleep, World.invoke, c_div, c_mod, c_mul]
  rw [wrap32_of_isJint _ hdiv, wrap32_of_isJint _ hmod1, wrap32_of_isJint _ hmul]

theorem nativeSleep_calls (w : World) (m : Int) (os : SysAnswer) :
    (Java_com_threerings_util_unsafe_Unsafe_nativeSleep w m os).2.calls =
      (select_sleep w m os).2.calls := by
  unfold Java_com_threerings_util_unsafe_Unsafe_nativeSleep
  by_cases h : (select_sleep w m os).1 < 0 <;> simp [h, World.fprintf]


/-! ## Facts about the identity operations shared by the proofs -/

theorem IdOp.run_fst (op : IdOp) (w : World) (v : Int) (os : SysAnswer) :
    (op.run w v os).1 = decide (os.ret = 0) := by
  cases op <;> by_cases h : os.ret = 0 <;>
    simp [IdOp.run, Java_com_threerings_util_unsafe_Unsafe_nativeSetuid,
      Java_com_threerings_util_unsafe_Unsafe_nativeSetgid,
      Java_com_threerings_util_unsafe_Unsafe_nativeSeteuid,
      Java_com_threerings_util_unsafe_Unsafe_nativeSetegid, h]

theorem IdOp.run_calls (op : IdOp) (w : World) (v : Int) (os : SysAnswer) :
    (op.run w v os).2.calls = w.calls ++ [op.primitive (to_id_t v)] := by
  cases op <;> by_cases h : os.ret = 0 <;>
    simp [IdOp.run, IdOp.primitive, World.invoke, World.fprintf,
      Java_com_threerings_util_unsafe_Unsafe_nativeSetuid,
      Java_com_threerings_util_unsafe_Unsafe_nativeSetgid,
      Java_com_threerings_util_unsafe_Unsafe_nativeSeteuid,
      Java_com_threerings_util_unsafe_Unsafe_nativeSetegid, h]

theorem IdOp.run_stderr (op : IdOp) (w : World) (v : Int) (os : SysAnswer) :
    (op.run w v os).2.stderr =
      w.stderr ++ (if os.ret ≠ 0
        then [diagnostic (op.primitive (to_id_t v)).name v os.strerror] else []) := by
  have e1 : "setuid" ++ "(" = "setuid(" := by decide
  have e2 : "setgid" ++ "(" = "setgid(" := by decide
  have e3 : "seteuid" ++ "(" = "seteuid(" := by decide
  have e4 : "setegid" ++ "(" = "setegid(" := by decide
  cases op <;> by_cases h : os.ret = 0 <;>
    simp [IdOp.run, IdOp.primitive, Call.name, diagnostic, World.invoke, World.fprintf,
      Java_com_threerings_util_unsafe_Unsafe_nativeSetuid,
      Java_com_threerings_util_unsafe_Unsafe_nativeSetgid,
      Java_com_threerings_util_unsafe_Unsafe_nativeSeteuid,
      Java_com_threerings_util_unsafe_Unsafe_nativeSetegid, h, e1, e2, e3, e4]

theorem IdOp.run_jvmpi (op : IdOp) (w : World) (v : Int) (os : SysAnswer) :
    (op.run w v os).2.jvmpi = w.jvmpi := by
  cases op <;> by_cases h : os.ret = 0 <;>
    simp [IdOp.run, World.invoke, World.fprintf,
      Java_com_threerings_util_unsafe_Unsafe_nativeSetuid,
      Java_com_threerings_util_unsafe_Unsafe_nativeSetgid,
      Java_com_threerings_util_unsafe_Unsafe_nativeSeteuid,
      Java_com_threerings_util_unsafe_Unsafe_nativeSetegid, h]

theorem fmt_d_signed_decimal (v : Int) :
    fmt_d v = (if v < 0 then "-" else "") ++ Nat.repr v.natAbs := by
  cases v with
  | ofNat n =>
    have h : ¬ (Int.ofNat n < 0) := by simp
    simp only [fmt_d, h, if_false]
    show Nat.repr n = "" ++ Nat.repr n
    simp
  | negSucc n =>
    have h : Int.negSucc n < 0 := Int.negSucc_lt_zero n
    simp only [fmt_d, h, if_true]
    rfl

theorem to_id_t_cast (v : Int) : (to_id_t v : Int) = v % 4294967296 := by
  unfold to_id_t id_bits
  have h : (0 : Int) ≤ v % (2 : Int) ^ 32 := Int.emod_nonneg _ (by norm_num)
  rw [Int.toNat_of_nonneg h]
  norm_num


/-! ## Identity operations -/

/-- C1: each of the four identity operations, for every input and every result code
`r` of its OS primitive, returns true if and only if `r = 0` and false if and only if
`r ≠ 0`, and it invokes that primitive (`setuid`, `setgid`, `seteuid`, `setegid`
respectively) exactly once: the list of invoked primitives grows by that single call,
whatever `r` is, so nothing is retried. -/
theorem identity_result_iff_zero (op : IdOp) (w : World) (v : Int) (os : SysAnswer) :
    ((op.run w v os).1 = true ↔ os.ret = 0) ∧
    ((op.run w v os).1 = false ↔ os.ret ≠ 0) ∧
    (op.run w v os).2.calls = w.calls ++ [op.primitive (to_id_t v)] ∧
    (op.run w v os).2.calls.length = w.calls.length + 1 := by
  refine ⟨?_, ?_, IdOp.run_calls op w v os, ?_⟩
  · rw [IdOp.run_fst]; simp
  · rw [IdOp.run_fst]; simp
  · rw [IdOp.run_calls]; simp

/-- C7: for each of the four identity operations and every input `v`, the texts written
to standard error grow by exactly one line when the OS primitive fails (result not
zero) and by nothing when it succeeds; the line is
`<primitive>(<v>) failed: <description>` plus a newline, where `<primitive>` is the
name of the primitive that was invoked, `<v>` is `v` in signed decimal (a minus sign
for a negative value, then the decimal digits of the absolute value) and
`<description>` is the text of `strerror(errno)`. -/
theorem identity_diagnostic_line (op : IdOp) (w : World) (v : Int) (os : SysAnswer) :
    ∃ c : Call,
      (op.run w v os).2.calls = w.calls ++ [c] ∧
      (op.run w v os).2.stderr =
        w.stderr ++ (if os.ret ≠ 0 then
          [c.name ++ "(" ++ fmt_d v ++ ") failed: " ++ os.strerror ++ "\n"] else []) ∧
      fmt_d v = (if v < 0 then "-" else "") ++ Nat.repr v.natAbs ∧
      (c.name = "setuid" ∨ c.name = "setgid" ∨ c.name = "seteuid" ∨ c.name = "setegid") := by
  refine ⟨op.primitive (to_id_t v), IdOp.run_calls op w v os, ?_, fmt_d_signed_decimal v, ?_⟩
  · rw [IdOp.run_stderr]; rfl
  · cases op <;> simp [IdOp.primitive, Call.name]

/-- C10: for each of the four identity operations and every signed 32-bit input `v`,
the value handed to the OS primitive is `v` read as an unsigned 32-bit identity,
`v mod 2^32`: `v` itself when `v ≥ 0`, `v + 2^32` when `v < 0` (so `-1` goes out as
`4294967295`).  The primitive is invoked with that value whatever `v` is (the bridge
checks nothing itself), and two inputs go out as the same identity only if they are
equal. -/
theorem identity_forwarded_value (op : IdOp) (w : World) (v : Int) (os : SysAnswer)
    (hv : isJint v) :
    (op.run w v os).2.calls = w.calls ++ [op.primitive (to_id_t v)] ∧
    (to_id_t v : Int) = v % 2 ^ 32 ∧
    (to_id_t v : Int) = (if 0 ≤ v then v else v + 2 ^ 32) ∧
    to_id_t (-1) = 4294967295 ∧
    (∀ u : Int, isJint u → to_id_t u = to_id_t v → u = v) := by
  unfold isJint at hv
  have hc := to_id_t_cast v
  refine ⟨IdOp.run_calls op w v os, ?_, ?_, ?_, ?_⟩
  · rw [hc]; norm_num
  · rw [hc]; split <;> omega
  · decide
  · intro u hu h
    unfold isJint at hu
    have h1 : (to_id_t u : Int) = (to_id_t v : Int) := by rw [h]
    rw [to_id_t_cast u, hc] at h1
    omega

theorem identity_forwarded_value_witness :
    isJint (-1) ∧
    (IdOp.nativeSeteuid.run World.initial (-1) { ret := 0, strerror := "" }).2.calls =
      [Call.seteuid 4294967295] := by
  refine ⟨by decide, ?_⟩
  have h := (identity_forwarded_value IdOp.nativeSeteuid World.initial (-1)
    { ret := 0, strerror := "" } (by decide)).1
  rw [h]
  decide


/-- C8, refuted as stated: `nativeSetuid(-1)` on an OS whose `setuid(4294967295)`
returns `0` yields true and writes nothing to standard error. -/
theorem nativeSetuid_minus_one_can_succeed :
    Java_com_threerings_util_unsafe_Unsafe_nativeSetuid World.initial (-1)
        { ret := 0, strerror := "Unknown error: 0" } =
      (true, { jvmpi := 0, calls := [Call.setuid 4294967295], stderr := [] }) := by
  decide

/-- C8, amended: `nativeSetuid(-1)` hands `4294967295` to `setuid` without any check of
its own; it yields false and writes the one line `setuid(-1) failed: <description>`
exactly when `setuid` returns a result other than zero, and it yields true and writes
nothing exactly when `setuid` returns zero. -/
theorem nativeSetuid_minus_one (w : World) (os : SysAnswer) :
    (Java_com_threerings_util_unsafe_Unsafe_nativeSetuid w (-1) os).2.calls =
      w.calls ++ [Call.setuid 4294967295] ∧
    (((Java_com_threerings_util_unsafe_Unsafe_nativeSetuid w (-1) os).1 = false ∧
      (Java_com_threerings_util_unsafe_Unsafe_nativeSetuid w (-1) os).2.stderr =
        w.stderr ++ ["setuid(-1) failed: " ++ os.strerror ++ "\n"]) ↔ os.ret ≠ 0) ∧
    (((Java_com_threerings_util_unsafe_Unsafe_nativeSetuid w (-1) os).1 = true ∧
      (Java_com_threerings_util_unsafe_Unsafe_nativeSetuid w (-1) os).2.stderr =
        w.stderr) ↔ os.ret = 0) := by
  have hid : to_id_t (-1) = 4294967295 := by decide
  have hfmt : "setuid(" ++ fmt_d (-1) = "setuid(-1" := by decide
  by_cases h : os.ret = 0 <;>
    simp [Java_com_threerings_util_unsafe_Unsafe_nativeSetuid, World.invoke,
      World.fprintf, h, hid, hfmt]

/-! ## Sleep -/

/-- C3: for every non-negative signed 32-bit duration `d`, `select_sleep d` and
`nativeSleep d` invoke `select` once with descriptor count `0`, an empty read set, no
write or exception set, and the timeout `tv_sec = d / 1000`,
`tv_usec = (d mod 1000) * 1000`; then `0 ≤ tv_usec ≤ 999000`,
`tv_sec * 1000000 + tv_usec = 1000 * d`, and the values the code computes on the way
(`d / 1000`, `d % 1000`, `(d % 1000) * 1000`) all fit a signed 32-bit integer. -/
theorem select_sleep_nonneg (w : World) (d : Int) (os : SysAnswer)
    (h0 : 0 ≤ d) (h1 : d ≤ 2147483647) :
    (select_sleep w d os).2.calls =
      w.calls ++ [Call.select 0 (some []) none none
        (some { tv_sec := d / 1000, tv_usec := d % 1000 * 1000 })] ∧
    (Java_com_threerings_util_unsafe_Unsafe_nativeSleep w d os).2.calls =
      w.calls ++ [Call.select 0 (some []) none none
        (some { tv_sec := d / 1000, tv_usec := d % 1000 * 1000 })] ∧
    0 ≤ d % 1000 * 1000 ∧ d % 1000 * 1000 ≤ 999000 ∧
    d / 1000 * 1000000 + d % 1000 * 1000 = 1000 * d ∧
    isJint (Int.tdiv d 1000) ∧ isJint (Int.tmod d 1000) ∧
    isJint (Int.tmod d 1000 * 1000) := by
  have hj : isJint d := by unfold isJint; omega
  have hcalls := select_sleep_timeout w d os hj
  rw [tdiv_1000_of_nonneg d h0, tmod_1000_of_nonneg d h0] at hcalls
  rw [tdiv_1000_of_nonneg d h0, tmod_1000_of_nonneg d h0]
  refine ⟨hcalls, ?_, ?_, ?_, ?_, ?_, ?_, ?_⟩
  · rw [nativeSleep_calls]; exact hcalls
  all_goals (try unfold isJint); omega

theorem select_sleep_nonneg_witness :
    (0 : Int) ≤ 1500 ∧ (1500 : Int) ≤ 2147483647 ∧
    (select_sleep World.initial 1500 { ret := 0, strerror := "" }).2.calls =
      [Call.select 0 (some []) none none (some { tv_sec := 1, tv_usec := 500000 })] := by
  have h := (select_sleep_nonneg World.initial 1500 { ret := 0, strerror := "" }
    (by decide) (by decide)).1
  refine ⟨by decide, by decide, ?_⟩
  rw [h]
  decide

/-- C9: a negative signed 32-bit `millis` is passed on uncoerced: `select_sleep` hands
`select` the timeout `tv_sec = millis / 1000`, `tv_usec = (millis % 1000) * 1000` with
C's truncating division and remainder; `tv_sec ≤ 0`, `-999000 ≤ tv_usec ≤ 0`, at least
one of the two is strictly negative, `tv_sec * 1000000 + tv_usec = 1000 * millis`, and
the values the code computes on the way (`millis / 1000`, `millis % 1000`,
`(millis % 1000) * 1000`) all fit a signed 32-bit integer. -/
theorem select_sleep_negative (w : World) (millis : Int) (os : SysAnswer)
    (h0 : -2147483648 ≤ millis) (h1 : millis < 0) :
    (select_sleep w millis os).2.calls =
      w.calls ++ [Call.select 0 (some []) none none
        (some { tv_sec := Int.tdiv millis 1000, tv_usec := Int.tmod millis 1000 * 1000 })] ∧
    (Java_com_threerings_util_unsafe_Unsafe_nativeSleep w millis os).2.calls =
      (select_sleep w millis os).2.calls ∧
    Int.tdiv millis 1000 ≤ 0 ∧
    -999000 ≤ Int.tmod millis 1000 * 1000 ∧ Int.tmod millis 1000 * 1000 ≤ 0 ∧
    (Int.tdiv millis 1000 < 0 ∨ Int.tmod millis 1000 * 1000 < 0) ∧
    Int.tdiv millis 1000 * 1000000 + Int.tmod millis 1000 * 1000 = 1000 * millis ∧
    isJint (Int.tdiv millis 1000) ∧ isJint (Int.tmod millis 1000) ∧
    isJint (Int.tmod millis 1000 * 1000) := by
  have hj : isJint millis := by unfold isJint; omega
  refine ⟨select_sleep_timeout w millis os hj, nativeSleep_calls w millis os, ?_⟩
  rw [tdiv_1000_of_neg millis h1, tmod_1000_of_neg millis h1]
  unfold isJint
  omega

theorem select_sleep_negative_witness :
    (-2147483648 : Int) ≤ -2147483648 ∧ (-2147483648 : Int) < 0 ∧
    (select_sleep World.initial (-2147483648)
        { ret := -1, strerror := "Invalid argument" }).2.calls =
      [Call.select 0 (some []) none none
        (some { tv_sec := -2147483, tv_usec := -648000 })] := by
  have h := (select_sleep_negative World.initial (-2147483648)
    { ret := -1, strerror := "Invalid argument" } (by decide) (by decide)).1
  refine ⟨by decide, by decide, ?_⟩
  rw [h]
  decide

/-- C6: for every duration and every result `r` of `select`, `nativeSleep` invokes
`select` exactly once, hands the caller the same unit result whatever `r` is, and
writes to standard error if and only if `r < 0`; what it writes then is the single line
`select_sleep() failed: <description>`. -/
theorem nativeSleep_swallows_failure (w : World) (millis : Int) (os : SysAnswer) :
    (Java_com_threerings_util_unsafe_Unsafe_nativeSleep w millis os).2.calls =
      w.calls ++ [Call.select 0 (some []) none none
        (some { tv_sec := c_div millis 1000, tv_usec := c_mul (c_mod millis 1000) 1000 })] ∧
    (∀ other : SysAnswer,
      (Java_com_threerings_util_unsafe_Unsafe_nativeSleep w millis os).1 =
        (Java_com_threerings_util_unsafe_Unsafe_nativeSleep w millis other).1) ∧
    ((Java_com_threerings_util_unsafe_Unsafe_nativeSleep w millis os).2.stderr ≠ w.stderr
      ↔ os.ret < 0) ∧
    (Java_com_threerings_util_unsafe_Unsafe_nativeSleep w millis os).2.stderr =
      w.stderr ++ (if os.ret < 0 then
        ["select_sleep() failed: " ++ os.strerror ++ "\n"] else []) := by
  by_cases h : os.ret < 0 <;>
    simp [Java_com_threerings_util_unsafe_Unsafe_nativeSleep, select_sleep, World.invoke,
      World.fprintf, h]


/-! ## Initialisation and the profiling-interface handle -/

theorem init_of_not_pos (w : World) (jni : JniAnswer) (h : ¬ jni.GetJavaVM > 0) :
    Java_com_threerings_util_unsafe_Unsafe_init w jni =
      if jni.GetEnv < 0 then
        (false,
          { jvmpi := jni.penv.getD w.jvmpi
            calls := w.calls ++ [Call.GetJavaVM] ++ [Call.GetEnv InterfaceVersion.JVMPI_VERSION_1]
            stderr := w.stderr ++ ["Failed to get JVMPI from JavaVM.\n"] })
      else
        (true,
          { jvmpi := jni.penv.getD w.jvmpi
            calls := w.calls ++ [Call.GetJavaVM] ++ [Call.GetEnv InterfaceVersion.JVMPI_VERSION_1]
            stderr := w.stderr }) := by
  simp only [Java_com_threerings_util_unsafe_Unsafe_init, World.invoke, World.fprintf, h,
    if_false]

theorem init_of_pos (w : World) (jni : JniAnswer) (h : jni.GetJavaVM > 0) :
    Java_com_threerings_util_unsafe_Unsafe_init w jni =
      (false,
        { jvmpi := w.jvmpi
          calls := w.calls ++ [Call.GetJavaVM]
          stderr := w.stderr ++ ["Failed to get JavaVM from env.\n"] }) := by
  simp only [Java_com_threerings_util_unsafe_Unsafe_init, World.invoke, World.fprintf, h,
    if_true]

/-- C2, what the code does instead: when `GetJavaVM` fails with a negative JNI error
code, `init` does not take its failure branch (the test is `> 0`); it writes no
`Failed to get JavaVM` line, goes on to call `GetEnv`, and returns true as soon as the
`GetEnv` result is not negative, writing nothing at all in that case. -/
theorem init_misses_negative_GetJavaVM (w : World) (jni : JniAnswer)
    (hfail : jni.GetJavaVM < 0) :
    (Java_com_threerings_util_unsafe_Unsafe_init w jni).2.calls =
      w.calls ++ [Call.GetJavaVM, Call.GetEnv InterfaceVersion.JVMPI_VERSION_1] ∧
    "Failed to get JavaVM from env.\n" ∉
      (Java_com_threerings_util_unsafe_Unsafe_init w jni).2.stderr.drop w.stderr.length ∧
    ((Java_com_threerings_util_unsafe_Unsafe_init w jni).1 = true ↔ 0 ≤ jni.GetEnv) ∧
    (0 ≤ jni.GetEnv →
      (Java_com_threerings_util_unsafe_Unsafe_init w jni).2.stderr = w.stderr) := by
  have h : ¬ jni.GetJavaVM > 0 := by omega
  rw [init_of_not_pos w jni h]
  by_cases he : jni.GetEnv < 0
  · simp [he]
  · simp [he]
    omega

theorem init_misses_negative_GetJavaVM_witness :
    (-1 : Int) < 0 ∧
    (Java_com_threerings_util_unsafe_Unsafe_init World.initial
        { GetJavaVM := -1, GetEnv := 0, penv := none }).1 = true ∧
    (Java_com_threerings_util_unsafe_Unsafe_init World.initial
        { GetJavaVM := -1, GetEnv := 0, penv := none }).2.stderr = [] ∧
    (Java_com_threerings_util_unsafe_Unsafe_init World.initial
        { GetJavaVM := -1, GetEnv := 0, penv := none }).2.calls =
      [Call.GetJavaVM, Call.GetEnv InterfaceVersion.JVMPI_VERSION_1] :=
  have h := init_misses_negative_GetJavaVM World.initial
    { GetJavaVM := -1, GetEnv := 0, penv := none } (by decide)
  ⟨by decide, h.2.2.1.mpr (by decide), h.2.2.2 (by decide), h.1⟩

/-- C4, refuted as stated: after an `init` that returned true and left the handle `7`,
a second `init` whose `GetEnv` fails with `JNI_EVERSION` (`-3`) and stores `NULL`
returns false and leaves the handle `NULL`. -/
theorem init_twice_overwrites_handle :
    (Java_com_threerings_util_unsafe_Unsafe_init World.initial
        { GetJavaVM := 0, GetEnv := 0, penv := some 7 }).1 = true ∧
    (Java_com_threerings_util_unsafe_Unsafe_init World.initial
        { GetJavaVM := 0, GetEnv := 0, penv := some 7 }).2.jvmpi = 7 ∧
    (Java_com_threerings_util_unsafe_Unsafe_init
        (Java_com_threerings_util_unsafe_Unsafe_init World.initial
          { GetJavaVM := 0, GetEnv := 0, penv := some 7 }).2
        { GetJavaVM := 0, GetEnv := -3, penv := some 0 }).2.jvmpi = 0 := by
  decide

/-- C4, amended: in a state reached by an `init` that returned true, a later `init`
whose `GetJavaVM` result is not negative leaves the handle as it was when that result
is positive (the call returns before `GetEnv`) or when `GetEnv` stores nothing;
otherwise the handle afterwards is the value `GetEnv` stored through its out-pointer,
whatever the call returns.  So the handle keeps its value across the later call exactly
when `GetEnv` is not reached, stores nothing, or stores the value already held. -/
theorem init_twice_handle (w : World) (first later : JniAnswer)
    (hfirst : (Java_com_threerings_util_unsafe_Unsafe_init w first).1 = true)
    (hlater : 0 ≤ later.GetJavaVM) :
    (Java_com_threerings_util_unsafe_Unsafe_init
        (Java_com_threerings_util_unsafe_Unsafe_init w first).2 later).2.jvmpi =
      (if later.GetJavaVM > 0 then
        (Java_com_threerings_util_unsafe_Unsafe_init w first).2.jvmpi
      else
        later.penv.getD (Java_com_threerings_util_unsafe_Unsafe_init w first).2.jvmpi) ∧
    ((Java_com_threerings_util_unsafe_Unsafe_init
        (Java_com_threerings_util_unsafe_Unsafe_init w first).2 later).2.jvmpi =
        (Java_com_threerings_util_unsafe_Unsafe_init w first).2.jvmpi ↔
      (later.GetJavaVM > 0 ∨ later.penv = none ∨
        later.penv = some (Java_com_threerings_util_unsafe_Unsafe_init w first).2.jvmpi)) := by
  have _hreached := hfirst
  have _hnotneg := hlater
  generalize (Java_com_threerings_util_unsafe_Unsafe_init w first).2 = s
  by_cases hp : later.GetJavaVM > 0
  · rw [init_of_pos s later hp]
    simp [hp]
  · rw [init_of_not_pos s later hp]
    cases hpe : later.penv with
    | none => by_cases he : later.GetEnv < 0 <;> simp [hp, he]
    | some p =>
      by_cases he : later.GetEnv < 0 <;> simp [hp, he, eq_comm]

theorem init_twice_handle_witness :
    (Java_com_threerings_util_unsafe_Unsafe_init World.initial
        { GetJavaVM := 0, GetEnv := 0, penv := some 7 }).1 = true ∧
    (0 : Int) ≤ 0 ∧
    (Java_com_threerings_util_unsafe_Unsafe_init
        (Java_com_threerings_util_unsafe_Unsafe_init World.initial
          { GetJavaVM := 0, GetEnv := 0, penv := some 7 }).2
        { GetJavaVM := 0, GetEnv := 0, penv := some 9 }).2.jvmpi = 9 := by
  have h := (init_twice_handle World.initial
    { GetJavaVM := 0, GetEnv := 0, penv := some 7 }
    { GetJavaVM := 0, GetEnv := 0, penv := some 9 } (by decide) (by decide)).1
  refine ⟨by decide, by decide, ?_⟩
  rw [h]
  decide

end UnsafeBridge
